import Mathlib

/-!
Verification development for the `veracross_api` Python client
(`veracross_api/veracross.py`).  The client is a paginated, rate-limited
HTTP JSON API wrapper.  We give a shallow embedding of its core:

* the parameter normalization step `_cleanup_parameters`,
* the constructor `Veracross.__init__` and the `singleton` decorator,
* the rate-limit bookkeeping `set_timers`,
* the paginated fetch `pull`, instrumented with an explicit event trace
  (HTTP requests issued and throttle sleeps performed) so that request
  counts and blocking behaviour are provable.

External collaborators are modelled as parameters: the HTTP server is a
function from the index of the request to the response it returns, and
the `dateutil.parser.parse` routine is a function argument
(`String → Option PyDateTime`, with `none` meaning the parser raises).
A concrete ISO `YYYY-MM-DD` instance `isoParse` is supplied for witnesses.
-/

/-- A calendar date, as carried by Python `datetime.date`. -/
structure PyDate where
  year : Nat
  month : Nat
  day : Nat
deriving DecidableEq, Repr

/-- A Python `datetime.datetime`: a date plus a time of day.  In Python,
`datetime.datetime` is a subclass of `datetime.date`, which matters for the
`isinstance(-, datetime.date)` test in `_cleanup_parameters`. -/
structure PyDateTime where
  date : PyDate
  hour : Nat
  minute : Nat
  second : Nat
deriving DecidableEq, Repr

/-- A scalar Python value as supplied in a query-parameter mapping. -/
inductive PyScalar where
  | str : String → PyScalar
  | int : Int → PyScalar
  | date : PyDate → PyScalar
  | datetime : PyDateTime → PyScalar
deriving DecidableEq, Repr

/-- A caller-supplied query-parameter value: a scalar, or an ordered
collection of scalars (the data model of the client: values may be scalars,
date-like values, or ordered collections of scalars). -/
inductive PyVal where
  | scalar : PyScalar → PyVal
  | list : List PyScalar → PyVal
deriving DecidableEq, Repr

/-- A value stored in the dictionary built by `_cleanup_parameters`: the code
stores either a string or (for a parsed `updated_after`) a raw
`datetime.datetime` object. -/
inductive PyOut where
  | str : String → PyOut
  | datetime : PyDateTime → PyOut
deriving DecidableEq, Repr

/-- Zero-pad a number to two digits, as `strftime` field `%m` / `%d` does. -/
def pad2 (n : Nat) : String :=
  if n < 10 then "0" ++ toString n else toString n

/-- Zero-pad a number to four digits, as `strftime` field `%Y` does. -/
def pad4 (n : Nat) : String :=
  if n < 10 then "000" ++ toString n
  else if n < 100 then "00" ++ toString n
  else if n < 1000 then "0" ++ toString n
  else toString n

/-- `strftime("%Y-%m-%d")` on a date. -/
def fmtDate (d : PyDate) : String :=
  pad4 d.year ++ "-" ++ pad2 d.month ++ "-" ++ pad2 d.day

/-- Python `str()` on a scalar: a string is itself, an integer its decimal
form, a date its ISO form, a datetime its ISO date and time. -/
def pyStrScalar : PyScalar → String
  | PyScalar.str s => s
  | PyScalar.int n => toString n
  | PyScalar.date d => fmtDate d
  | PyScalar.datetime dt =>
      fmtDate dt.date ++ " " ++ pad2 dt.hour ++ ":" ++ pad2 dt.minute ++ ":" ++ pad2 dt.second

/-- Python `repr()` on a scalar, used only when a collection is stringified. -/
def pyReprScalar : PyScalar → String
  | PyScalar.str s => "\x27" ++ s ++ "\x27"
  | PyScalar.int n => toString n
  | PyScalar.date d =>
      "datetime.date(" ++ toString d.year ++ ", " ++ toString d.month ++ ", "
        ++ toString d.day ++ ")"
  | PyScalar.datetime dt =>
      "datetime.datetime(" ++ toString dt.date.year ++ ", " ++ toString dt.date.month
        ++ ", " ++ toString dt.date.day ++ ", " ++ toString dt.hour ++ ", "
        ++ toString dt.minute ++ ", " ++ toString dt.second ++ ")"

/-- Python `str()` on a parameter value. -/
def pyStrVal : PyVal → String
  | PyVal.scalar sc => pyStrScalar sc
  | PyVal.list vs => "[" ++ String.intercalate ", " (vs.map pyReprScalar) ++ "]"

/-- `isinstance(v, collections.abc.Iterable)`: in Python, both strings and
lists are iterable; integers, dates and datetimes are not. -/
def isIterable : PyVal → Bool
  | PyVal.scalar (PyScalar.str _) => true
  | PyVal.list _ => true
  | _ => false

/-- The expression `",".join(map(str, v))` for an iterable `v`: iterating a
string yields its characters, iterating a list yields its elements. -/
def iterJoin : PyVal → String
  | PyVal.scalar (PyScalar.str s) =>
      String.intercalate "," (s.data.map fun c => String.mk [c])
  | PyVal.list vs => String.intercalate "," (vs.map pyStrScalar)
  | _ => ""

/-- One iteration of the `for key in parameters` loop of
`Veracross._cleanup_parameters`.  For the key `"updated_after"`: a string
value is fed to `dateutil.parser.parse` (modelled by the `parse` argument;
`none` means the parser raises, which propagates as `Except.error`), and the
parsed `datetime` object is stored; then `isinstance(parameters[key],
datetime.date)` is tested on the ORIGINAL value, so a date or datetime value
is formatted with `strftime("%Y-%m-%d")`, while a just-parsed string leaves
the raw `datetime` object stored; any other type is skipped.  For any other
key: an iterable value is comma-joined with `",".join(map(str, v))`, and any
other value is stored as `str(v)`. -/
def cleanupEntry (parse : String → Option PyDateTime) (k : String) (v : PyVal) :
    Except String (Option (String × PyOut)) :=
  if k = "updated_after" then
    match v with
    | PyVal.scalar (PyScalar.str s) =>
        match parse s with
        | some dt => Except.ok (some (k, PyOut.datetime dt))
        | none => Except.error s
    | PyVal.scalar (PyScalar.date d) => Except.ok (some (k, PyOut.str (fmtDate d)))
    | PyVal.scalar (PyScalar.datetime dt) => Except.ok (some (k, PyOut.str (fmtDate dt.date)))
    | _ => Except.ok none
  else if isIterable v then Except.ok (some (k, PyOut.str (iterJoin v)))
  else Except.ok (some (k, PyOut.str (pyStrVal v)))

/-- The `for key in parameters` loop of `_cleanup_parameters`, over the
entries of the mapping in iteration order. -/
def cleanupList (parse : String → Option PyDateTime) :
    List (String × PyVal) → Except String (List (String × PyOut))
  | [] => Except.ok []
  | (k, v) :: rest =>
    match cleanupEntry parse k v with
    | Except.error e => Except.error e
    | Except.ok entry =>
      match cleanupList parse rest with
      | Except.error e => Except.error e
      | Except.ok tail => Except.ok (entry.toList ++ tail)

/-- `Veracross._cleanup_parameters`: `None` (or an empty mapping) yields the
empty mapping, otherwise each entry is processed in order. -/
def cleanup_parameters (parse : String → Option PyDateTime)
    (parameters : Option (List (String × PyVal))) :
    Except String (List (String × PyOut)) :=
  match parameters with
  | none => Except.ok []
  | some ps => cleanupList parse ps

/-- Accumulate decimal digits; any non-digit character rejects the string. -/
def digitsValAux : List Char → Nat → Option Nat
  | [], acc => some acc
  | c :: cs, acc =>
      if c.isDigit then digitsValAux cs (acc * 10 + (c.toNat - 48)) else none

/-- Read a nonempty all-digit character list as a number. -/
def digitsVal : List Char → Option Nat
  | [] => none
  | c :: cs => digitsValAux (c :: cs) 0

/-- Split a character list on the dash character. -/
def splitDash : List Char → List (List Char)
  | [] => [[]]
  | c :: cs =>
    let r := splitDash cs
    if c = '-' then [] :: r
    else
      match r with
      | [] => [[c]]
      | g :: gs => (c :: g) :: gs

/-- A concrete stand-in for `dateutil.parser.parse`, accepting exactly dates
of the shape `YYYY-MM-DD` and producing the corresponding midnight datetime;
anything else fails (the real parser raises).  Used to instantiate witnesses;
theorems about the normalizer quantify over the parse function. -/
def isoParse (s : String) : Option PyDateTime :=
  match (splitDash s.data).map digitsVal with
  | [some y, some m, some d] => some ⟨⟨y, m, d⟩, 0, 0, 0⟩
  | _ => none

example : isoParse "2019-01-01" = some ⟨⟨2019, 1, 1⟩, 0, 0, 0⟩ := rfl
example : isoParse "not-a-date" = none := rfl
example : cleanup_parameters isoParse (some [("ids", PyVal.list [PyScalar.int 1, PyScalar.int 2, PyScalar.int 3])]) = Except.ok [("ids", PyOut.str "1,2,3")] := rfl
example : cleanup_parameters isoParse (some [("foo", PyVal.scalar (PyScalar.str "ab"))]) = Except.ok [("foo", PyOut.str "a,b")] := rfl
example : cleanup_parameters isoParse (some [("foo", PyVal.scalar (PyScalar.int 42))]) = Except.ok [("foo", PyOut.str "42")] := rfl
example : cleanup_parameters isoParse (some [("updated_after", PyVal.scalar (PyScalar.str "2019-01-01"))]) = Except.ok [("updated_after", PyOut.datetime ⟨⟨2019, 1, 1⟩, 0, 0, 0⟩)] := rfl
example : cleanup_parameters isoParse (some [("updated_after", PyVal.scalar (PyScalar.str "not-a-date"))]) = Except.error "not-a-date" := rfl
example : cleanup_parameters isoParse (some [("updated_after", PyVal.scalar (PyScalar.date ⟨2019, 1, 1⟩))]) = Except.ok [("updated_after", PyOut.str "2019-01-01")] := rfl

/-- The observable state of a `Veracross` instance: the resolved base URL
(`api_url`; `none` models the attribute never having been assigned), whether
`session.auth` was set, the stored username, and the rate-limit bookkeeping
fields. -/
structure VCState where
  apiUrl : Option String
  auth : Bool
  vcuser : String
  rateLimitRemaining : Int
  rateLimitReset : Int
deriving DecidableEq, Repr

/-- The constructor configuration dictionary: each recognized key either
present with a value or absent. -/
structure Config where
  school_short_name : Option String
  vcurl : Option String
  vcuser : Option String
  vcpass : Option String
deriving DecidableEq, Repr

/-- The error raised by `Veracross.__init__`: `KeyError("Credentials not
provided")` when `vcuser` or `vcpass` is missing. -/
inductive InitErr where
  | credentialsMissing
deriving DecidableEq, Repr

/-- `Veracross.__init__`: rate limits start at 300 remaining and 0 reset; a
present `school_short_name` derives the base URL from the fixed template; a
present `vcurl` then overrides it; missing credentials raise.  Note that when
neither URL key is present, `api_url` is simply never assigned. -/
def Veracross_init (config : Config) : Except InitErr VCState :=
  let url1 : Option String :=
    match config.school_short_name with
    | some ssn => some ("https://api.veracross.com/" ++ ssn ++ "/v2/")
    | none => none
  let url2 : Option String :=
    match config.vcurl with
    | some u => some u
    | none => url1
  match config.vcuser, config.vcpass with
  | some u, some _ =>
      Except.ok
        { apiUrl := url2, auth := true, vcuser := u,
          rateLimitRemaining := 300, rateLimitReset := 0 }
  | _, _ => Except.error InitErr.credentialsMissing

/-- The `singleton` decorator wrapping the `Veracross` class: given the
current `wrapper_singleton.instance` cell and the configuration passed to the
call, it constructs a new instance only when the cell is empty, and otherwise
returns the stored instance untouched (the configuration argument is
ignored).  The result pairs the returned instance with the new cell
contents. -/
def wrapper_singleton (inst : Option VCState) (config : Config) :
    Except InitErr (VCState × Option VCState) :=
  match inst with
  | some s => Except.ok (s, some s)
  | none =>
    match Veracross_init config with
    | Except.ok s => Except.ok (s, some s)
    | Except.error e => Except.error e

/-- `Veracross.set_timers`: store the two header values, and if the remaining
count is exactly 1, sleep for the reset value plus one second.  The second
component reports the sleep performed (`none`: no sleep). -/
def set_timers (s : VCState) (limit_remaining limit_reset : Int) :
    VCState × Option Int :=
  let s2 := { s with rateLimitRemaining := limit_remaining,
                     rateLimitReset := limit_reset }
  if limit_remaining = 1 then (s2, some (limit_reset + 1)) else (s2, none)

/-- An observable effect of `pull`: an HTTP GET (with its URL and the
normalized parameter mapping passed to `requests`), or a thread-blocking
sleep of the given number of seconds. -/
inductive Ev where
  | request : String → List (String × PyOut) → Ev
  | sleep : Int → Ev
deriving DecidableEq, Repr

/-- The sleep events produced by one `set_timers` call. -/
def sleepEvs : Option Int → List Ev
  | some d => [Ev.sleep d]
  | none => []

/-- An HTTP response as `pull` observes it: the status code, the
`X-Total-Count` header if present, the two rate-limit headers (always read
inside the loop), and the result of `response.json()` (`Except.error` models
a body on which JSON decoding raises). -/
structure Resp (α : Type) where
  status : Nat
  totalCount : Option Nat
  rlRemaining : Int
  rlReset : Int
  body : Except Unit (List α)

/-- The exceptions that can escape `pull`: the explicit
`RuntimeError("Not connected.")`, the `AttributeError` from reading a never
assigned `api_url`, the `dateutil` parse error propagating out of
`_cleanup_parameters`, and a JSON decode error from `response.json()`. -/
inductive PullErr where
  | notConnected
  | attributeError
  | parseError : String → PullErr
  | jsonDecodeError
deriving DecidableEq, Repr

/-- The page count computed from the first response:
`int(headers["X-Total-Count"]) // 100 + 1` when the header is present,
otherwise 1. -/
def pagesOf {α : Type} (r : Resp α) : Nat :=
  match r.totalCount with
  | some c => c / 100 + 1
  | none => 1

/-- The `while page <= pages` loop of `pull`.  `server` maps the index of a
request (in issue order, starting from 0 at the first request of the `pull`
call) to its response; `resp` is the current response, `n` the number of
requests issued so far.  Each iteration appends `response.json()` to the
accumulated records (raising stops the loop and loses the accumulation),
updates the rate-limit state via `set_timers` (possibly sleeping), increments
the page counter and unconditionally issues the next page request — also
after the final page, whose response is then discarded by the loop test.
The `fuel` argument only bounds the recursion; every caller passes at least
`pages + 1 - page`, which makes it equal to the source loop. -/
def pullLoop {α : Type} (server : Nat → Resp α) (url : String)
    (qs : List (String × PyOut)) :
    Nat → VCState → Resp α → Nat → Nat → Nat →
      Except PullErr (List α) × List Ev × VCState × Nat
  | 0, s, _, _, _, n => (Except.ok [], [], s, n)
  | fuel + 1, s, resp, page, pages, n =>
    if page ≤ pages then
      match resp.body with
      | Except.error _ => (Except.error PullErr.jsonDecodeError, [], s, n)
      | Except.ok recs =>
        let t := set_timers s resp.rlRemaining resp.rlReset
        let r := pullLoop server url qs fuel t.1 (server n) (page + 1) pages (n + 1)
        (Except.map (fun l => recs ++ l) r.1,
         sleepEvs t.2 ++ Ev.request (url ++ ("?page=" ++ toString (page + 1))) qs :: r.2.1,
         r.2.2.1, r.2.2.2)
    else (Except.ok [], [], s, n)

/-- `Veracross.pull`: check `session.auth`, build the URL (reading `api_url`,
which raises if never assigned), normalize the parameters, issue the first
request; on a non-200 status return the empty record list, otherwise compute
the page count from `X-Total-Count` and run the pagination loop.  Returns the
result (or the exception raised), the ordered trace of requests and sleeps,
and the final client state. -/
def pull {α : Type} (server : Nat → Resp α) (parse : String → Option PyDateTime)
    (s : VCState) (source : String) (parameters : Option (List (String × PyVal))) :
    Except PullErr (List α) × List Ev × VCState :=
  if s.auth = true then
    match s.apiUrl with
    | none => (Except.error PullErr.attributeError, [], s)
    | some base =>
      let url := base ++ source ++ ".json"
      match cleanup_parameters parse parameters with
      | Except.error e => (Except.error (PullErr.parseError e), [], s)
      | Except.ok qs =>
        let resp := server 0
        if resp.status = 200 then
          let pages := pagesOf resp
          let r := pullLoop server url qs (pages + 1) s resp 1 pages 1
          (r.1, Ev.request url qs :: r.2.1, r.2.2.1)
        else (Except.ok [], [Ev.request url qs], s)
  else (Except.error PullErr.notConnected, [], s)

/-- Whether an effect is an HTTP request. -/
def Ev.isReq : Ev → Bool
  | Ev.request _ _ => true
  | Ev.sleep _ => false

/-- The number of HTTP requests in a trace. -/
def reqCount (evs : List Ev) : Nat := (evs.filter Ev.isReq).length

/-- `catBodies f start k` concatenates `f start, f (start+1), …` for `k`
consecutive indices: the records of `k` consecutive pages in order. -/
def catBodies {α : Type} (f : Nat → List α) : Nat → Nat → List α
  | _, 0 => []
  | start, k + 1 => f start ++ catBodies f (start + 1) k

theorem reqCount_nil : reqCount [] = 0 := rfl

theorem reqCount_cons_req (u : String) (q : List (String × PyOut)) (evs : List Ev) :
    reqCount (Ev.request u q :: evs) = reqCount evs + 1 := by
  simp [reqCount, List.filter, Ev.isReq]

theorem reqCount_sleepEvs (o : Option Int) (evs : List Ev) :
    reqCount (sleepEvs o ++ evs) = reqCount evs := by
  cases o <;> simp [sleepEvs, reqCount, List.filter, Ev.isReq]

/-- When the page counter has passed the page count, the loop does nothing. -/
theorem pullLoop_stop {α : Type} (server : Nat → Resp α) (url : String)
    (qs : List (String × PyOut)) (fuel : Nat) (s : VCState) (resp : Resp α)
    (page pages n : Nat) (h : pages < page) :
    pullLoop server url qs fuel s resp page pages n = (Except.ok [], [], s, n) := by
  have hnot : ¬ page ≤ pages := by omega
  cases fuel with
  | zero => rfl
  | succ fl => simp [pullLoop, hnot]

/-- Unfolding one iteration of the loop when the current body decodes. -/
theorem pullLoop_step {α : Type} (server : Nat → Resp α) (url : String)
    (qs : List (String × PyOut)) (fl : Nat) (s : VCState) (resp : Resp α)
    (page pages n : Nat) (recs : List α) (hle : page ≤ pages)
    (hbody : resp.body = Except.ok recs) :
    pullLoop server url qs (fl + 1) s resp page pages n =
      (Except.map (fun l => recs ++ l)
         (pullLoop server url qs fl (set_timers s resp.rlRemaining resp.rlReset).1
            (server n) (page + 1) pages (n + 1)).1,
       sleepEvs (set_timers s resp.rlRemaining resp.rlReset).2 ++
         Ev.request (url ++ ("?page=" ++ toString (page + 1))) qs ::
           (pullLoop server url qs fl (set_timers s resp.rlRemaining resp.rlReset).1
              (server n) (page + 1) pages (n + 1)).2.1,
       (pullLoop server url qs fl (set_timers s resp.rlRemaining resp.rlReset).1
          (server n) (page + 1) pages (n + 1)).2.2.1,
       (pullLoop server url qs fl (set_timers s resp.rlRemaining resp.rlReset).1
          (server n) (page + 1) pages (n + 1)).2.2.2) := by
  simp only [pullLoop, hbody]
  rw [if_pos hle]

/-- Unfolding one iteration of the loop when JSON decoding raises. -/
theorem pullLoop_step_err {α : Type} (server : Nat → Resp α) (url : String)
    (qs : List (String × PyOut)) (fl : Nat) (s : VCState) (resp : Resp α)
    (page pages n : Nat) (e : Unit) (hle : page ≤ pages)
    (hbody : resp.body = Except.error e) :
    pullLoop server url qs (fl + 1) s resp page pages n =
      (Except.error PullErr.jsonDecodeError, [], s, n) := by
  simp only [pullLoop, hbody]
  rw [if_pos hle]

/-- When every response decodes, the loop starting at `page ≤ pages` with
`pages - page = k` appends the bodies of the current response and of the `k`
further pages, issues `k + 1` requests (the final one asking for the page
after the last), and returns with the request counter advanced by `k + 1`. -/
theorem pullLoop_ok {α : Type} (server : Nat → Resp α) (url : String)
    (qs : List (String × PyOut)) (f : Nat → List α)
    (hbody : ∀ i, (server i).body = Except.ok (f i)) :
    ∀ (k page pages n fuel : Nat) (s : VCState), 1 ≤ n → page + k = pages →
      k + 1 ≤ fuel →
      ∃ evs s2,
        pullLoop server url qs fuel s (server (n - 1)) page pages n =
          (Except.ok (catBodies f (n - 1) (k + 1)), evs, s2, n + k + 1) ∧
        reqCount evs = k + 1 := by
  intro k
  induction k with
  | zero =>
    intro page pages n fuel s hn hpg hfuel
    obtain ⟨fl, rfl⟩ : ∃ fl, fuel = fl + 1 := ⟨fuel - 1, by omega⟩
    have hle : page ≤ pages := by omega
    rw [pullLoop_step server url qs fl s (server (n - 1)) page pages n (f (n - 1)) hle
        (hbody (n - 1)),
      pullLoop_stop server url qs fl _ (server n) (page + 1) pages (n + 1) (by omega)]
    refine ⟨_, _, rfl, ?_⟩
    rw [reqCount_sleepEvs, reqCount_cons_req, reqCount_nil]
  | succ k ih =>
    intro page pages n fuel s hn hpg hfuel
    obtain ⟨fl, rfl⟩ : ∃ fl, fuel = fl + 1 := ⟨fuel - 1, by omega⟩
    have hle : page ≤ pages := by omega
    obtain ⟨evs2, s2, heq2, hc2⟩ := ih (page + 1) pages (n + 1) fl
      (set_timers s (server (n - 1)).rlRemaining (server (n - 1)).rlReset).1
      (by omega) (by omega) (by omega)
    rw [show n + 1 - 1 = n from by omega] at heq2
    rw [pullLoop_step server url qs fl s (server (n - 1)) page pages n (f (n - 1)) hle
        (hbody (n - 1)), heq2]
    have harg : f (n - 1) ++ catBodies f n (k + 1) = catBodies f (n - 1) (k + 1 + 1) := by
      show _ = f (n - 1) ++ catBodies f (n - 1 + 1) (k + 1)
      rw [show n - 1 + 1 = n from by omega]
    refine ⟨sleepEvs (set_timers s (server (n - 1)).rlRemaining (server (n - 1)).rlReset).2 ++
        Ev.request (url ++ ("?page=" ++ toString (page + 1))) qs :: evs2, s2, ?_, ?_⟩
    · simp only [Except.map]
      rw [harg, show n + 1 + k + 1 = n + (k + 1) + 1 from by omega]
    · rw [reqCount_sleepEvs, reqCount_cons_req, hc2]

/-- `pull` up to the pagination loop, when the first response has status
200: the first request is issued, the page count is computed, and the loop
runs starting at page 1 with one request already issued. -/
theorem pull_unfold_ok {α : Type} (server : Nat → Resp α)
    (parse : String → Option PyDateTime) (s : VCState) (base source : String)
    (ps : Option (List (String × PyVal))) (qs : List (String × PyOut))
    (hauth : s.auth = true) (hurl : s.apiUrl = some base)
    (hps : cleanup_parameters parse ps = Except.ok qs)
    (hstatus : (server 0).status = 200) :
    pull server parse s source ps =
      ((pullLoop server (base ++ source ++ ".json") qs (pagesOf (server 0) + 1) s
          (server 0) 1 (pagesOf (server 0)) 1).1,
       Ev.request (base ++ source ++ ".json") qs ::
         (pullLoop server (base ++ source ++ ".json") qs (pagesOf (server 0) + 1) s
            (server 0) 1 (pagesOf (server 0)) 1).2.1,
       (pullLoop server (base ++ source ++ ".json") qs (pagesOf (server 0) + 1) s
          (server 0) 1 (pagesOf (server 0)) 1).2.2.1) := by
  simp [pull, hauth, hurl, hps, hstatus]

/-- The sleep performed by `set_timers` is `reset + 1` seconds exactly when
the remaining count is exactly 1, and no sleep otherwise. -/
theorem sleepEvs_set_timers (s : VCState) (rem rst : Int) :
    sleepEvs (set_timers s rem rst).2 =
      if rem = 1 then [Ev.sleep (rst + 1)] else [] := by
  by_cases h : rem = 1 <;> simp [set_timers, sleepEvs, h]

/-- `set_timers` always overwrites the two stored rate-limit fields with its
arguments. -/
theorem set_timers_fst (s : VCState) (rem rst : Int) :
    (set_timers s rem rst).1 =
      { s with rateLimitRemaining := rem, rateLimitReset := rst } := by
  by_cases h : rem = 1 <;> simp [set_timers, h]

/-- Claim C1, amended: for every `pull` call whose first response has status
200, with total pages computed as `floor(N/100) + 1` from the
`X-Total-Count` header (1 when the header is absent), and whose responses
all decode, the call returns the concatenation of exactly the first
total-pages page bodies in server page order, but issues total pages + 1
HTTP requests: the loop body unconditionally fetches the next page after
appending the current one, so one extra request for the page after the last
is issued and its response discarded.  In particular a page count of 1
yields the first page body alone, with two requests issued. -/
theorem pull_pagination {α : Type} (server : Nat → Resp α)
    (parse : String → Option PyDateTime) (s : VCState) (base source : String)
    (ps : Option (List (String × PyVal))) (qs : List (String × PyOut))
    (f : Nat → List α)
    (hauth : s.auth = true) (hurl : s.apiUrl = some base)
    (hps : cleanup_parameters parse ps = Except.ok qs)
    (hstatus : (server 0).status = 200)
    (hbody : ∀ i, (server i).body = Except.ok (f i)) :
    (pull server parse s source ps).1 =
      Except.ok (catBodies f 0 (pagesOf (server 0))) ∧
    reqCount (pull server parse s source ps).2.1 = pagesOf (server 0) + 1 := by
  have hp1 : 1 ≤ pagesOf (server 0) := by
    unfold pagesOf
    cases (server 0).totalCount <;> simp
  obtain ⟨evs, s2, heq, hcount⟩ := pullLoop_ok server (base ++ source ++ ".json") qs f hbody
    (pagesOf (server 0) - 1) 1 (pagesOf (server 0)) 1 (pagesOf (server 0) + 1) s
    (by omega) (by omega) (by omega)
  rw [Nat.sub_add_cancel hp1] at heq
  rw [pull_unfold_ok server parse s base source ps qs hauth hurl hps hstatus, heq]
  refine ⟨rfl, ?_⟩
  rw [reqCount_cons_req, hcount]
  omega

/-- The concrete two-page scenario used for claim C1: every page body
decodes, the first response carries `X-Total-Count: 150`. -/
def c1server : Nat → Resp Nat := fun i =>
  { status := 200, totalCount := some 150, rlRemaining := 50, rlReset := 0,
    body := Except.ok [i] }

/-- A client state as produced by construction with short name `abc`. -/
def st0 : VCState :=
  { apiUrl := some "https://api.veracross.com/abc/v2/", auth := true,
    vcuser := "user1", rateLimitRemaining := 300, rateLimitReset := 0 }

/-- Claim C1, counterexample: with `X-Total-Count: 150` the claim predicts
exactly `150 / 100 + 1 = 2` requests, but the code issues 3. -/
theorem pull_pagination_counterexample :
    reqCount (pull c1server isoParse st0 "facstaff" none).2.1 ≠ 150 / 100 + 1 := by
  decide

/-- Witness for the amended claim C1 at the concrete two-page scenario. -/
theorem pull_pagination_w :
    (pull c1server isoParse st0 "facstaff" none).1 =
      Except.ok (catBodies (fun i => [i]) 0 (pagesOf (c1server 0))) ∧
    reqCount (pull c1server isoParse st0 "facstaff" none).2.1 =
      pagesOf (c1server 0) + 1 :=
  pull_pagination c1server isoParse st0 "https://api.veracross.com/abc/v2/"
    "facstaff" none [] (fun i => [i]) rfl rfl rfl rfl (fun _ => rfl)

/-- Claim C5: for every `pull` call whose first response has any status
other than 200, the call returns the empty result set with no exception
raised, exactly one request in the trace, the state untouched, and the
response body never parsed (the conclusion holds with no assumption at all
on the body, decodable or not). -/
theorem pull_non200_empty {α : Type} (server : Nat → Resp α)
    (parse : String → Option PyDateTime) (s : VCState) (base source : String)
    (ps : Option (List (String × PyVal))) (qs : List (String × PyOut))
    (hauth : s.auth = true) (hurl : s.apiUrl = some base)
    (hps : cleanup_parameters parse ps = Except.ok qs)
    (hstatus : (server 0).status ≠ 200) :
    pull server parse s source ps =
      (Except.ok [], [Ev.request (base ++ source ++ ".json") qs], s) := by
  simp [pull, hauth, hurl, hps, hstatus]

/-- A server answering 404 with a body on which JSON decoding would raise. -/
def c5server : Nat → Resp Nat := fun _ =>
  { status := 404, totalCount := none, rlRemaining := 50, rlReset := 0,
    body := Except.error () }

/-- Witness for claim C5: a 404 first response with an undecodable body. -/
theorem pull_non200_empty_w :
    pull c5server isoParse st0 "facstaff" none =
      (Except.ok [],
       [Ev.request "https://api.veracross.com/abc/v2/facstaff.json" []], st0) := by
  have h := pull_non200_empty c5server isoParse st0 "https://api.veracross.com/abc/v2/"
    "facstaff" none [] rfl rfl rfl (by decide)
  simpa using h

/-- Claim C6: after the processed response, the stored remaining-call count
and reset-seconds in the returned client state are exactly the values of the
rate-limit headers of that response, and a blocking sleep of reset + 1
seconds occurs before the next request proceeds exactly when the remaining
count is 1 (and no sleep otherwise).  Stated on a single-page `pull`
(no `X-Total-Count`), whose trace is: first request, then the sleep from
`set_timers` if and only if remaining = 1, then the next (discarded)
request. -/
theorem pull_rate_limit_throttle {α : Type} (server : Nat → Resp α)
    (parse : String → Option PyDateTime) (s : VCState) (base source : String)
    (ps : Option (List (String × PyVal))) (qs : List (String × PyOut))
    (b0 : List α)
    (hauth : s.auth = true) (hurl : s.apiUrl = some base)
    (hps : cleanup_parameters parse ps = Except.ok qs)
    (hstatus : (server 0).status = 200)
    (hcount : (server 0).totalCount = none)
    (hb0 : (server 0).body = Except.ok b0) :
    (pull server parse s source ps).2.2.rateLimitRemaining = (server 0).rlRemaining ∧
    (pull server parse s source ps).2.2.rateLimitReset = (server 0).rlReset ∧
    (pull server parse s source ps).2.1 =
      Ev.request (base ++ source ++ ".json") qs ::
        ((if (server 0).rlRemaining = 1
          then [Ev.sleep ((server 0).rlReset + 1)] else []) ++
         [Ev.request (base ++ source ++ ".json" ++ "?page=2") qs]) := by
  have hpages : pagesOf (server 0) = 1 := by simp [pagesOf, hcount]
  rw [pull_unfold_ok server parse s base source ps qs hauth hurl hps hstatus, hpages]
  rw [pullLoop_step server (base ++ source ++ ".json") qs 1 s (server 0) 1 1 1 b0
      (by omega) hb0,
    pullLoop_stop server (base ++ source ++ ".json") qs 1 _ (server 1) 2 1 2 (by omega)]
  refine ⟨?_, ?_, ?_⟩
  · rw [set_timers_fst]
  · rw [set_timers_fst]
  · rw [sleepEvs_set_timers]
    rfl

/-- A single-page server whose response leaves exactly one call remaining. -/
def c6server : Nat → Resp Nat := fun _ =>
  { status := 200, totalCount := none, rlRemaining := 1, rlReset := 5,
    body := Except.ok [7] }

/-- A single-page server whose response leaves 50 calls remaining. -/
def c6serverFast : Nat → Resp Nat := fun _ =>
  { status := 200, totalCount := none, rlRemaining := 50, rlReset := 5,
    body := Except.ok [7] }

/-- Witness for claim C6: with remaining 1 and reset 5 the trace blocks for
6 seconds before the next request; with remaining 50 it does not block. -/
theorem pull_rate_limit_throttle_w :
    (pull c6server isoParse st0 "facstaff" none).2.1 =
      [Ev.request "https://api.veracross.com/abc/v2/facstaff.json" [],
       Ev.sleep 6,
       Ev.request "https://api.veracross.com/abc/v2/facstaff.json?page=2" []] ∧
    (pull c6serverFast isoParse st0 "facstaff" none).2.1 =
      [Ev.request "https://api.veracross.com/abc/v2/facstaff.json" [],
       Ev.request "https://api.veracross.com/abc/v2/facstaff.json?page=2" []] := by
  constructor
  · have h := (pull_rate_limit_throttle c6server isoParse st0
      "https://api.veracross.com/abc/v2/" "facstaff" none [] [7]
      rfl rfl rfl rfl rfl rfl).2.2
    simpa using h
  · have h := (pull_rate_limit_throttle c6serverFast isoParse st0
      "https://api.veracross.com/abc/v2/" "facstaff" none [] [7]
      rfl rfl rfl rfl rfl rfl).2.2
    simpa using h

/-- Claim C9: within one multi-page `pull`, only the first response's status
code is inspected.  Stated for a two-page fetch (100 ≤ N < 200): with no
assumption whatsoever on the second response's status, a decodable second
body is appended to the result, and an undecodable second body raises a
JSON decode error — never the empty or first-page-only result that a status
check would give. -/
theorem pull_later_status_unchecked {α : Type} (server : Nat → Resp α)
    (parse : String → Option PyDateTime) (s : VCState) (base source : String)
    (ps : Option (List (String × PyVal))) (qs : List (String × PyOut))
    (N : Nat) (b0 : List α)
    (hauth : s.auth = true) (hurl : s.apiUrl = some base)
    (hps : cleanup_parameters parse ps = Except.ok qs)
    (hstatus : (server 0).status = 200)
    (hcount : (server 0).totalCount = some N)
    (hN1 : 100 ≤ N) (hN2 : N < 200)
    (hb0 : (server 0).body = Except.ok b0) :
    (∀ b1, (server 1).body = Except.ok b1 →
      (pull server parse s source ps).1 = Except.ok (b0 ++ b1)) ∧
    (∀ e, (server 1).body = Except.error e →
      (pull server parse s source ps).1 = Except.error PullErr.jsonDecodeError) := by
  have hpages : pagesOf (server 0) = 2 := by
    simp only [pagesOf, hcount]
    omega
  constructor
  · intro b1 hb1
    rw [pull_unfold_ok server parse s base source ps qs hauth hurl hps hstatus, hpages]
    rw [pullLoop_step server (base ++ source ++ ".json") qs 2 s (server 0) 1 2 1 b0
        (by omega) hb0,
      pullLoop_step server (base ++ source ++ ".json") qs 1 _ (server 1) 2 2 2 b1
        (by omega) hb1,
      pullLoop_stop server (base ++ source ++ ".json") qs 1 _ (server 2) 3 2 3 (by omega)]
    simp [Except.map]
  · intro e hb1
    rw [pull_unfold_ok server parse s base source ps qs hauth hurl hps hstatus, hpages]
    rw [pullLoop_step server (base ++ source ++ ".json") qs 2 s (server 0) 1 2 1 b0
        (by omega) hb0,
      pullLoop_step_err server (base ++ source ++ ".json") qs 1 _ (server 1) 2 2 2 e
        (by omega) hb1]
    simp [Except.map]

/-- A two-page scenario whose second page answers 404 with a decodable
body. -/
def c9server : Nat → Resp Nat := fun i =>
  if i = 0 then
    { status := 200, totalCount := some 150, rlRemaining := 50, rlReset := 0,
      body := Except.ok [1, 2] }
  else
    { status := 404, totalCount := none, rlRemaining := 50, rlReset := 0,
      body := Except.ok [3] }

/-- Witness for claim C9: the 404 second page's body is appended anyway. -/
theorem pull_later_status_unchecked_w :
    (pull c9server isoParse st0 "facstaff" none).1 = Except.ok [1, 2, 3] := by
  have h := (pull_later_status_unchecked c9server isoParse st0
    "https://api.veracross.com/abc/v2/" "facstaff" none [] 150 [1, 2]
    rfl rfl rfl rfl rfl (by omega) (by omega) rfl).1 [3] rfl
  simpa using h

/-- The observable state of a client constructed from credentials only: no
base URL attribute was ever assigned. -/
def clientNoUrl (u : String) : VCState :=
  { apiUrl := none, auth := true, vcuser := u,
    rateLimitRemaining := 300, rateLimitReset := 0 }

/-- Claim C10: construction from a configuration holding `vcuser` and
`vcpass` but neither `school_short_name` nor `vcurl` succeeds without error
and yields a client whose base URL attribute is never set; every subsequent
`pull` on that client fails with the attribute-access error while building
the request URL, with an empty trace — before any network call. -/
theorem init_without_url (config : Config) (u p : String)
    (hssn : config.school_short_name = none) (hvcurl : config.vcurl = none)
    (huser : config.vcuser = some u) (hpass : config.vcpass = some p) :
    Veracross_init config = Except.ok (clientNoUrl u) ∧
    ∀ (α : Type) (server : Nat → Resp α) (parse : String → Option PyDateTime)
      (source : String) (ps : Option (List (String × PyVal))),
      pull server parse (clientNoUrl u) source ps =
        (Except.error PullErr.attributeError, [], clientNoUrl u) := by
  constructor
  · simp [Veracross_init, hssn, hvcurl, huser, hpass, clientNoUrl]
  · intro α server parse source ps
    simp [pull, clientNoUrl]

/-- A configuration with credentials but no URL information. -/
def cfgNoUrl : Config :=
  { school_short_name := none, vcurl := none,
    vcuser := some "user1", vcpass := some "pass1" }

/-- A server that would answer any request successfully; `pull` never
reaches it in the claim C10 scenario. -/
def anyServer : Nat → Resp Nat := fun _ =>
  { status := 200, totalCount := none, rlRemaining := 300, rlReset := 0,
    body := Except.ok [] }

/-- Witness for claim C10 at a concrete credentials-only configuration. -/
theorem init_without_url_w :
    Veracross_init cfgNoUrl = Except.ok (clientNoUrl "user1") ∧
    pull anyServer isoParse (clientNoUrl "user1") "facstaff" none =
      (Except.error PullErr.attributeError, [], clientNoUrl "user1") := by
  have h := init_without_url cfgNoUrl "user1" "pass1" rfl rfl rfl rfl
  exact ⟨h.1, h.2 Nat anyServer isoParse "facstaff" none⟩

/-- A first configuration, with its own URL and credentials. -/
def cfgA : Config :=
  { school_short_name := none, vcurl := some "https://a.example/v2/",
    vcuser := some "user1", vcpass := some "pass1" }

/-- A second, different configuration. -/
def cfgB : Config :=
  { school_short_name := none, vcurl := some "https://b.example/v2/",
    vcuser := some "user2", vcpass := some "pass2" }

/-- The instance produced by constructing with `cfgA`. -/
def stA : VCState :=
  { apiUrl := some "https://a.example/v2/", auth := true, vcuser := "user1",
    rateLimitRemaining := 300, rateLimitReset := 0 }

/-- Claim C8, violated by the code: constructing while the singleton cell
already holds the instance built from `cfgA` and passing the different
configuration `cfgB` silently returns the stored instance, still
authenticated as `user1` against the old base URL — the wrapper never even
reads its configuration argument once the cell is occupied. -/
theorem singleton_returns_stale_client :
    Veracross_init cfgA = Except.ok stA ∧
    wrapper_singleton (some stA) cfgB = Except.ok (stA, some stA) ∧
    cfgB.vcuser = some "user2" ∧ cfgB.vcurl = some "https://b.example/v2/" ∧
    stA.vcuser ≠ "user2" ∧ stA.apiUrl ≠ some "https://b.example/v2/" := by
  refine ⟨rfl, rfl, rfl, rfl, by decide, by decide⟩

/-- Claim C2, violated by the code: a list of scalars is indeed comma-joined
and a non-iterable scalar stringified, but a single string is also an
`Iterable`, so `",".join(map(str, v))` joins its CHARACTERS with commas:
the mapping from `"foo"` to `"ab"` is normalized to `"a,b"`, not passed
through unchanged. -/
theorem cleanup_string_value_mangled :
    cleanup_parameters isoParse
        (some [("ids", PyVal.list [PyScalar.int 1, PyScalar.int 2, PyScalar.int 3])]) =
      Except.ok [("ids", PyOut.str "1,2,3")] ∧
    cleanup_parameters isoParse (some [("foo", PyVal.scalar (PyScalar.int 42))]) =
      Except.ok [("foo", PyOut.str "42")] ∧
    cleanup_parameters isoParse (some [("foo", PyVal.scalar (PyScalar.str "ab"))]) =
      Except.ok [("foo", PyOut.str "a,b")] ∧
    ("a,b" : String) ≠ "ab" := by
  refine ⟨rfl, rfl, rfl, by decide⟩

/-- Claim C3, violated by the code: for a successfully parsed
`updated_after` string, the second `isinstance` test re-examines the
ORIGINAL string value, not the parsed result, so the `strftime` conversion
never runs and the normalized mapping holds the raw `datetime` object — not
the `YYYY-MM-DD` string, and not a string at all. -/
theorem cleanup_updated_after_left_as_datetime :
    cleanup_parameters isoParse
        (some [("updated_after", PyVal.scalar (PyScalar.str "2019-01-01"))]) =
      Except.ok [("updated_after", PyOut.datetime ⟨⟨2019, 1, 1⟩, 0, 0, 0⟩)] ∧
    ∀ s : String, PyOut.datetime ⟨⟨2019, 1, 1⟩, 0, 0, 0⟩ ≠ PyOut.str s := by
  refine ⟨rfl, fun s h => PyOut.noConfusion h⟩

/-- Claim C4, violated by the code: an unparseable `updated_after` string is
passed straight to `dateutil.parser.parse`, whose exception propagates out
of the normalizer (and hence out of `pull`); the `else: pass` meant to skip
the key is attached to the `isinstance(-, datetime.date)` test instead and
never handles a parse failure. -/
theorem cleanup_unparseable_updated_after_raises :
    cleanup_parameters isoParse
        (some [("updated_after", PyVal.scalar (PyScalar.str "not-a-date"))]) =
      Except.error "not-a-date" ∧
    isoParse "not-a-date" = none :=
  ⟨rfl, rfl⟩

/-- Claim C7, violated by the code: normalization is not idempotent on
already-normalized mappings, because a plain string value of length at
least two is comma-joined character by character on every pass: the
all-string mapping from `"a"` to `"xy"` comes back changed. -/
theorem cleanup_not_idempotent_on_strings :
    cleanup_parameters isoParse (some [("a", PyVal.scalar (PyScalar.str "xy"))]) =
      Except.ok [("a", PyOut.str "x,y")] ∧
    PyOut.str "x,y" ≠ PyOut.str "xy" := by
  refine ⟨rfl, by decide⟩
